import Mathlib

/-!
# Verification of the zeox interactive front-end

Shallow embedding of `src/main.rs` of the zeox repository: a terminal UI
wrapping the external `zeit` time-tracking tool.  Subprocess invocations are
modelled by their observable outcome (`ProcOutput`); the event loop `run_app`
is modelled as a transition function over the application state `App`, fed a
list of events (timer ticks and key presses); terminal-mode side effects are
modelled as explicit action traces.
-/

/-- Outcome of one subprocess invocation, as the code observes it through
`std::process::Output`: exit-status success flag, captured stdout and stderr
(the code converts both to text via `from_utf8_lossy`, so we keep them as
strings). -/
structure ProcOutput where
  success : Bool
  stdout : String
  stderr : String
deriving DecidableEq, Repr

/-- `Screen` enum of `main.rs` (lines 16-20): the three mutually exclusive
screens. -/
inductive Screen where
  | Main
  | List
  | Stats
deriving DecidableEq, Repr

/-- `App` struct of `main.rs` (lines 22-27): the application state owned by
the event loop. -/
structure App where
  current_screen : Screen
  tracking_status : String
  list_output : String
  stats_output : String
deriving DecidableEq, Repr

/-- The environment of external-tool results: what each of the five `zeit`
subprocess invocations would return.  The loop functions are parametrised
over this record, mirroring the injectable-Gateway reading of the code
(`Command::new("zeit")` calls in `main.rs`). -/
structure Gateway where
  tracking : ProcOutput
  listOut : ProcOutput
  stats : ProcOutput
  startCmd : ProcOutput
  finishCmd : ProcOutput

/-- Rust `char::is_whitespace` restricted to ASCII (space, tab, line feed,
vertical tab, form feed, carriage return); the non-ASCII Unicode
`White_Space` code points are irrelevant to the properties below. -/
def rustIsWhitespace (c : Char) : Bool :=
  c = ' ' || c = '\t' || c = '\n' || c = '\x0b' || c = '\x0c' || c = '\r'

/-- Rust `str::trim` on the character list: drop leading and trailing
whitespace. -/
def trimChars (l : List Char) : List Char :=
  ((l.dropWhile rustIsWhitespace).reverse.dropWhile rustIsWhitespace).reverse

/-- Rust `str::trim` as a string-to-string function. -/
def rustTrim (s : String) : String :=
  String.mk (trimChars s.data)

/-- Rust `str::trim().is_empty()` composed, as the code uses it. -/
def trimIsEmpty (s : String) : Bool :=
  (trimChars s.data).isEmpty

/-- `get_current_tracking` (`main.rs` lines 204-222), given the subprocess
outcome: on success, the sentinel `"No active tracking."` when the stdout is
empty after trimming, otherwise stdout verbatim; on non-zero exit, the
sentinel `"Error getting tracking status."` (stderr unused). -/
def get_current_tracking (out : ProcOutput) : String :=
  if out.success then
    if trimIsEmpty out.stdout then "No active tracking." else out.stdout
  else
    "Error getting tracking status."

/-- `get_list_output` (`main.rs` lines 353-367): stdout verbatim on success,
`format!("Error getting list: {}", stderr)` on non-zero exit. -/
def get_list_output (out : ProcOutput) : String :=
  if out.success then out.stdout else "Error getting list: " ++ out.stderr

/-- `get_stats_output` (`main.rs` lines 369-383): stdout verbatim on success,
`format!("Error getting stats: {}", stderr)` on non-zero exit. -/
def get_stats_output (out : ProcOutput) : String :=
  if out.success then out.stdout else "Error getting stats: " ++ out.stderr

/-- The Gateway calls (zeit subprocess invocations) the loop can make, used
to record a trace of external calls. -/
inductive GCall where
  | qTracking
  | qList
  | qStats
  | cStart
  | cFinish
deriving DecidableEq, Repr

/-- Key dispatch of `run_app` (`main.rs` lines 100-135): given the current
application state and the pressed key, the updated state, the list of Gateway
calls performed while handling the key, and whether the loop `break`s.
The nested Rust `match` is rendered as the same case analysis; `'s'`/`'f'`
run the start/finish command (a `cStart`/`cFinish` call) and then refresh
`tracking_status` from `get_current_tracking` (a `qTracking` call). -/
def handleKey (gw : Gateway) (app : App) (c : Char) : App × List GCall × Bool :=
  match app.current_screen with
  | Screen.Main =>
    if c = 'q' then
      (app, [], true)
    else if c = 's' then
      ({ app with tracking_status := get_current_tracking gw.tracking },
        [GCall.cStart, GCall.qTracking], false)
    else if c = 'f' then
      ({ app with tracking_status := get_current_tracking gw.tracking },
        [GCall.cFinish, GCall.qTracking], false)
    else if c = 'l' then
      ({ app with current_screen := Screen.List,
                  list_output := get_list_output gw.listOut },
        [GCall.qList], false)
    else if c = 'd' then
      ({ app with current_screen := Screen.Stats,
                  stats_output := get_stats_output gw.stats },
        [GCall.qStats], false)
    else
      (app, [], false)
  | Screen.List | Screen.Stats =>
    if c = 'b' then
      ({ app with current_screen := Screen.Main }, [], false)
    else
      (app, [], false)

/-- Handling of one pending tick (`main.rs` lines 86-92): the tracking
status is refreshed unconditionally (a `qTracking` Gateway call), and a
redraw is issued only when the current screen is `Main` (the `if let
Screen::Main` guard).  Returns the updated state, the Gateway calls, and the
number of tick-triggered redraws. -/
def tickUpdate (gw : Gateway) (app : App) : App × List GCall × Nat :=
  let app2 := { app with tracking_status := get_current_tracking gw.tracking }
  (app2, [GCall.qTracking], if app2.current_screen = Screen.Main then 1 else 0)

/-- Events consumed by the loop: a timer tick received on the channel, or a
keyboard key press. -/
inductive Ev where
  | tick
  | key (c : Char)

/-- The event loop of `run_app`, folded over the list of events it consumes,
in order: a tick runs `tickUpdate`; a key runs `handleKey` and, when the
handler `break`s, stops processing (remaining events are not consumed).
Returns the final state and whether the loop terminated via `break`. -/
def runEvents (gw : Gateway) : App → List Ev → App × Bool
  | app, [] => (app, false)
  | app, Ev.tick :: rest => runEvents gw (tickUpdate gw app).1 rest
  | app, Ev.key c :: rest =>
    let r := handleKey gw app c
    if r.2.2 then (r.1, true) else runEvents gw r.1 rest

/-- The dispatch table of spec section 4.1, written from the spec's words
(for comparison against `handleKey`): `none` means "terminate loop";
`some s` is the next screen.  From Main, `q` terminates, `l` goes to List,
`d` goes to Stats, `s`/`f` stay on Main; from List or Stats, `b` goes back
to Main; every other pair leaves the screen unchanged. -/
def dispatch (s : Screen) (c : Char) : Option Screen :=
  match s with
  | Screen.Main =>
    if c = 'q' then none
    else if c = 'l' then some Screen.List
    else if c = 'd' then some Screen.Stats
    else some Screen.Main
  | Screen.List => if c = 'b' then some Screen.Main else some Screen.List
  | Screen.Stats => if c = 'b' then some Screen.Main else some Screen.Stats

/-- The key presses of an event sequence, in order (ticks carry no key). -/
def keysOf : List Ev → List Char
  | [] => []
  | Ev.tick :: r => keysOf r
  | Ev.key c :: r => c :: keysOf r

/-- Folding the spec's dispatch table over a key sequence: the resulting
screen and whether a terminating entry was hit (processing stops there). -/
def foldDispatch : Screen → List Char → Screen × Bool
  | s, [] => (s, false)
  | s, c :: rest =>
    match dispatch s c with
    | none => (s, true)
    | some s2 => foldDispatch s2 rest

/-- Per-key agreement between the code's dispatch (`handleKey`) and the
spec's table (`dispatch`): the screen after a key equals the table's entry
(staying put when the table says terminate), and the loop breaks exactly on
the table's terminating entries. -/
theorem handleKey_screen_eq (gw : Gateway) (app : App) (c : Char) :
    (handleKey gw app c).1.current_screen =
      (dispatch app.current_screen c).getD app.current_screen
    ∧ (handleKey gw app c).2.2 = (dispatch app.current_screen c).isNone := by
  obtain ⟨s, ts, lo, so⟩ := app
  cases s with
  | Main =>
    by_cases hq : c = 'q'
    · subst hq; exact ⟨rfl, rfl⟩
    · by_cases hs : c = 's'
      · subst hs; exact ⟨rfl, rfl⟩
      · by_cases hf : c = 'f'
        · subst hf; exact ⟨rfl, rfl⟩
        · by_cases hl : c = 'l'
          · subst hl; exact ⟨rfl, rfl⟩
          · by_cases hd : c = 'd'
            · subst hd; exact ⟨rfl, rfl⟩
            · simp [handleKey, dispatch, hq, hs, hf, hl, hd]
  | List =>
    by_cases hb : c = 'b'
    · subst hb; exact ⟨rfl, rfl⟩
    · simp [handleKey, dispatch, hb]
  | Stats =>
    by_cases hb : c = 'b'
    · subst hb; exact ⟨rfl, rfl⟩
    · simp [handleKey, dispatch, hb]

/-- C1: for every sequence of key events interleaved with ticks, the active
screen after processing the sequence is exactly the screen given by folding
the dispatch table of spec section 4.1 over the key presses, the loop breaks
exactly when the fold hits a terminating entry, and the table's terminating
entries are exactly `q` on Main (so the loop terminates only on `q` pressed
while on Main).  This holds for all keys, in particular those drawn from
{s,f,l,d,b,q}. -/
theorem run_app_screen_refines_dispatch (gw : Gateway) (app : App) (evs : List Ev) :
    ((runEvents gw app evs).1.current_screen
        = (foldDispatch app.current_screen (keysOf evs)).1
      ∧ (runEvents gw app evs).2 = (foldDispatch app.current_screen (keysOf evs)).2)
    ∧ ∀ s c, (dispatch s c).isNone
        = (decide (s = Screen.Main) && decide (c = 'q')) := by
  constructor
  · induction evs generalizing app with
    | nil => exact ⟨rfl, rfl⟩
    | cons e rest ih =>
      cases e with
      | tick => exact ih (tickUpdate gw app).1
      | key c =>
        obtain ⟨h1, h2⟩ := handleKey_screen_eq gw app c
        simp only [runEvents, keysOf]
        cases hd : dispatch app.current_screen c with
        | none =>
          rw [hd] at h1 h2
          simp only [Option.isNone_none] at h2
          simp only [Option.getD_none] at h1
          simp [h2, foldDispatch, hd, h1]
        | some s2 =>
          rw [hd] at h1 h2
          simp only [Option.isNone_some] at h2
          simp only [Option.getD_some] at h1
          simp only [h2, if_false, Bool.false_eq_true, foldDispatch, hd]
          have := ih (handleKey gw app c).1
          rw [h1] at this
          exact this
  · intro s c
    cases s with
    | Main =>
      by_cases hq : c = 'q'
      · subst hq; simp [dispatch]
      · by_cases hl : c = 'l'
        · subst hl; simp [dispatch]
        · by_cases hd : c = 'd'
          · subst hd; simp [dispatch]
          · simp [dispatch, hq, hl, hd]
    | List => by_cases hb : c = 'b' <;> simp [dispatch, hb]
    | Stats => by_cases hb : c = 'b' <;> simp [dispatch, hb]

/-- The tick-draining `while let Ok(_) = rx.try_recv()` loop (`main.rs`
lines 86-92) processing `n` pending ticks: iterates `tickUpdate`, returning
the final state and the total number of tick-triggered redraws. -/
def drainTicks (gw : Gateway) : App → Nat → App × Nat
  | app, 0 => (app, 0)
  | app, n + 1 =>
    let r := tickUpdate gw app
    let r2 := drainTicks gw r.1 n
    (r2.1, r.2.2 + r2.2)

/-- Draining `n` pending ticks issues `n` redraws when on Main and none on
List or Stats (each tick preserves the screen). -/
theorem drainTicks_draws (gw : Gateway) (app : App) (n : Nat) :
    (drainTicks gw app n).2 = (if app.current_screen = Screen.Main then n else 0) := by
  induction n generalizing app with
  | zero => simp [drainTicks]
  | succ n ih =>
    have h2 := ih (tickUpdate gw app).1
    by_cases h : app.current_screen = Screen.Main <;>
      simp [drainTicks, tickUpdate, h] at h2 ⊢ <;> omega

/-- Draining at least one pending tick sets the tracking status to the
current Gateway answer and changes nothing else. -/
theorem drainTicks_state (gw : Gateway) (app : App) (n : Nat) :
    (drainTicks gw app (n + 1)).1
      = { app with tracking_status := get_current_tracking gw.tracking } := by
  induction n generalizing app with
  | zero => rfl
  | succ n ih => exact ih (tickUpdate gw app).1

/-- C6 (amended): each pending tick refreshes the tracking-status text
regardless of the current screen (the assignment at `main.rs` line 87 is
unconditional), changes no other field and not the screen, performs exactly
one status Gateway call, and triggers a redraw only when on Main; draining
`n` pending ticks therefore issues `n` tick-redraws on Main and none on List
or Stats, while still updating the tracking status. -/
theorem tick_refresh_and_redraw (gw : Gateway) (app : App) (n : Nat) :
    (tickUpdate gw app).1.tracking_status = get_current_tracking gw.tracking
    ∧ (tickUpdate gw app).1.current_screen = app.current_screen
    ∧ (tickUpdate gw app).1.list_output = app.list_output
    ∧ (tickUpdate gw app).1.stats_output = app.stats_output
    ∧ (tickUpdate gw app).2.1 = [GCall.qTracking]
    ∧ (tickUpdate gw app).2.2 = (if app.current_screen = Screen.Main then 1 else 0)
    ∧ (drainTicks gw app n).2 = (if app.current_screen = Screen.Main then n else 0)
    ∧ (drainTicks gw app (n + 1)).1
        = { app with tracking_status := get_current_tracking gw.tracking } :=
  ⟨rfl, rfl, rfl, rfl, rfl, rfl, drainTicks_draws gw app n, drainTicks_state gw app n⟩

/-- A Gateway whose status query succeeds with output `"X"`. -/
def gwX : Gateway :=
  ⟨⟨true, "X", ""⟩, ⟨true, "", ""⟩, ⟨true, "", ""⟩, ⟨true, "", ""⟩, ⟨true, "", ""⟩⟩

/-- An application state sitting on the List screen with empty texts. -/
def appListEmpty : App := ⟨Screen.List, "", "", ""⟩

/-- C6 counterexample: on the List screen a pending tick does NOT leave the
application state unchanged — the tracking-status text is refreshed (here
from `""` to `"X"`), refuting "ticks leave the application state unchanged
on non-Main screens". -/
theorem tick_on_list_changes_state :
    appListEmpty.current_screen = Screen.List
    ∧ (tickUpdate gwX appListEmpty).1 ≠ appListEmpty
    ∧ (tickUpdate gwX appListEmpty).1.tracking_status = "X"
    ∧ (tickUpdate gwX appListEmpty).2.1 = [GCall.qTracking] := by decide

/-- C8: pressing `b` on the List or Stats screen switches to Main, performs
no Gateway call, and leaves the tracking-status, list and stats texts
exactly as they were. -/
theorem back_key_no_gateway_calls (gw : Gateway) (app : App)
    (h : app.current_screen = Screen.List ∨ app.current_screen = Screen.Stats) :
    (handleKey gw app 'b').1.current_screen = Screen.Main
    ∧ (handleKey gw app 'b').1.tracking_status = app.tracking_status
    ∧ (handleKey gw app 'b').1.list_output = app.list_output
    ∧ (handleKey gw app 'b').1.stats_output = app.stats_output
    ∧ (handleKey gw app 'b').2.1 = []
    ∧ (handleKey gw app 'b').2.2 = false := by
  rcases h with h | h <;> simp [handleKey, h]

/-- Witness for `back_key_no_gateway_calls` at a concrete List-screen
state. -/
theorem back_key_no_gateway_calls_witness :
    (handleKey gwX appListEmpty 'b').1.current_screen = Screen.Main
    ∧ (handleKey gwX appListEmpty 'b').1.tracking_status = appListEmpty.tracking_status
    ∧ (handleKey gwX appListEmpty 'b').1.list_output = appListEmpty.list_output
    ∧ (handleKey gwX appListEmpty 'b').1.stats_output = appListEmpty.stats_output
    ∧ (handleKey gwX appListEmpty 'b').2.1 = []
    ∧ (handleKey gwX appListEmpty 'b').2.2 = false :=
  back_key_no_gateway_calls gwX appListEmpty (Or.inl rfl)

/-- The terminal-mode side effects performed by `start_tracking` and
`finish_tracking` around their prompts: `disable_raw_mode`,
`LeaveAlternateScreen`, `DisableMouseCapture`, then (after the prompt)
`EnterAlternateScreen`, `EnableMouseCapture`, `enable_raw_mode`. -/
inductive TermAction where
  | disableRaw
  | leaveAlt
  | disableMouse
  | enterAlt
  | enableMouse
  | enableRaw
deriving DecidableEq, Repr

/-- Answers of the three `requestty` input questions of `start_tracking`
(project, task, begin); a completed prompt always yields all three as
strings (the project one validated non-empty). -/
structure StartAnswers where
  project : String
  task : String
  begin : String
deriving DecidableEq, Repr

/-- Answers of the three `requestty` input questions of `finish_tracking`
(task, begin, finish). -/
structure FinishAnswers where
  task : String
  begin : String
  finish : String
deriving DecidableEq, Repr

/-- Terminal-action trace of `start_tracking` (`main.rs` lines 226-253),
given the outcome of `requestty::prompt`: the session is left
(`disable_raw_mode`, `LeaveAlternateScreen`, `DisableMouseCapture`), then
the prompt runs; on `Ok` the session is re-entered and the answers
returned; on `Err` the `.unwrap()` at line 249 panics, so no further
statement runs — the trace stops after leaving the session and no answers
are produced. -/
def start_tracking_terminal (promptRes : Except String StartAnswers) :
    List TermAction × Option StartAnswers :=
  let pre := [TermAction.disableRaw, TermAction.leaveAlt, TermAction.disableMouse]
  match promptRes with
  | Except.ok a =>
    (pre ++ [TermAction.enterAlt, TermAction.enableMouse, TermAction.enableRaw], some a)
  | Except.error _ => (pre, none)

/-- Terminal-action trace of `finish_tracking` (`main.rs` lines 293-313):
same bracket shape as `start_tracking_terminal`, with the `.unwrap()` at
line 309 panicking on a failed prompt. -/
def finish_tracking_terminal (promptRes : Except String FinishAnswers) :
    List TermAction × Option FinishAnswers :=
  let pre := [TermAction.disableRaw, TermAction.leaveAlt, TermAction.disableMouse]
  match promptRes with
  | Except.ok a =>
    (pre ++ [TermAction.enterAlt, TermAction.enableMouse, TermAction.enableRaw], some a)
  | Except.error _ => (pre, none)

/-- A trace re-enters the session when it performs `EnterAlternateScreen`,
`EnableMouseCapture` and `enable_raw_mode`. -/
def sessionReentered (tr : List TermAction) : Bool :=
  tr.contains TermAction.enterAlt && tr.contains TermAction.enableMouse
    && tr.contains TermAction.enableRaw

/-- C2 counterexample: when the prompt body fails, `start_tracking` (and
likewise `finish_tracking`) leaves the session and panics without
re-entering it — the trace ends after `DisableMouseCapture`, with no
`EnterAlternateScreen` and no `enable_raw_mode`; restoration is NOT
unconditional. -/
theorem prompt_failure_skips_restore :
    (start_tracking_terminal (Except.error "prompt failed")).1
        = [TermAction.disableRaw, TermAction.leaveAlt, TermAction.disableMouse]
    ∧ TermAction.enterAlt ∉ (start_tracking_terminal (Except.error "prompt failed")).1
    ∧ TermAction.enableRaw ∉ (start_tracking_terminal (Except.error "prompt failed")).1
    ∧ sessionReentered (start_tracking_terminal (Except.error "prompt failed")).1 = false
    ∧ sessionReentered (finish_tracking_terminal (Except.error "prompt failed")).1 = false
    ∧ (start_tracking_terminal (Except.error "prompt failed")).2 = none := by decide

/-- C2 (amended): the prompt-suspension bracket of the start- and
finish-tracking commands re-enters the terminal session if and only if the
prompt body succeeds; on a failed prompt the `.unwrap()` panics after the
session was left, so the session is not re-entered. -/
theorem prompt_bracket_restores_iff_ok
    (ps : Except String StartAnswers) (pf : Except String FinishAnswers) :
    sessionReentered (start_tracking_terminal ps).1 = ps.isOk
    ∧ sessionReentered (finish_tracking_terminal pf).1 = pf.isOk := by
  constructor
  · cases ps <;> rfl
  · cases pf <;> rfl

/-- Argument construction of `start_tracking` (`main.rs` lines 256-277):
starting from `["track"]`, push `--project <project>` (the project answer is
always present: the input question is validated non-empty), push
`--task <task>` only when the task answer is non-empty after trimming, push
`--begin <begin>` only when the begin answer is non-empty after trimming,
then append `--no-colors`. -/
def build_start_args (project task begin : String) : List String :=
  let args : List String := ["track"]
  let args := args ++ ["--project", project]
  let args := if trimIsEmpty task then args else args ++ ["--task", task]
  let args := if trimIsEmpty begin then args else args ++ ["--begin", begin]
  args ++ ["--no-colors"]

/-- C3: the start-tracking argument list always carries `--project <name>`,
carries `--task <value>` iff the task answer is non-empty after trimming,
carries `--begin <value>` iff the begin answer is non-empty after trimming,
ends with `--no-colors`, and for project "Website" with empty task and
begin answers it is exactly `track --project Website --no-colors`.  (The
membership equivalences assume the free-form answer strings are not
themselves the literal flag tokens.) -/
theorem start_args_spec (p t b : String)
    (hp1 : p ≠ "--task") (hp2 : p ≠ "--begin") (ht : t ≠ "--begin") (hb : b ≠ "--task") :
    build_start_args p t b
        = ["track", "--project", p]
            ++ (if trimIsEmpty t then [] else ["--task", t])
            ++ (if trimIsEmpty b then [] else ["--begin", b])
            ++ ["--no-colors"]
    ∧ "--project" ∈ build_start_args p t b
    ∧ (("--task" ∈ build_start_args p t b) ↔ trimIsEmpty t = false)
    ∧ (("--begin" ∈ build_start_args p t b) ↔ trimIsEmpty b = false)
    ∧ (build_start_args p t b).getLast? = some "--no-colors"
    ∧ build_start_args "Website" "" "" = ["track", "--project", "Website", "--no-colors"] := by
  cases hte : trimIsEmpty t <;> cases hbe : trimIsEmpty b <;>
    simp [build_start_args, hte, hbe, Ne.symm hp1, Ne.symm hp2, Ne.symm ht, Ne.symm hb] <;>
    decide

/-- Witness for `start_args_spec`: with project "Website" and empty task and
begin answers, the argument sequence is exactly
`track --project Website --no-colors`. -/
theorem start_args_spec_witness :
    build_start_args "Website" "" "" = ["track", "--project", "Website", "--no-colors"] :=
  (start_args_spec "Website" "" "" (by decide) (by decide) (by decide) (by decide)).2.2.2.2.2

/-- C4: on a non-zero exit status the status query returns exactly the
sentinel `"Error getting tracking status."`, whatever stdout and stderr
contained. -/
theorem tracking_error_sentinel (stdout stderr : String) :
    get_current_tracking ⟨false, stdout, stderr⟩ = "Error getting tracking status." := rfl

/-- C5 counterexample: the whitespace-only output `" "` is non-empty, yet a
successful status query returns the sentinel `"No active tracking."` rather
than `" "` verbatim — refuting "every successful query with non-empty
output returns the output verbatim". -/
theorem tracking_whitespace_not_verbatim :
    (" " : String) ≠ ""
    ∧ get_current_tracking ⟨true, " ", ""⟩ = "No active tracking."
    ∧ get_current_tracking ⟨true, " ", ""⟩ ≠ " " := by decide

/-- C5 (amended): on success, the status query returns the sentinel
`"No active tracking."` when the stdout is empty after trimming, and the
stdout verbatim when it is non-empty after trimming. -/
theorem tracking_success_output (stdout stderr : String) :
    (trimIsEmpty stdout = true →
      get_current_tracking ⟨true, stdout, stderr⟩ = "No active tracking.")
    ∧ (trimIsEmpty stdout = false →
      get_current_tracking ⟨true, stdout, stderr⟩ = stdout) := by
  constructor <;> intro h <;> simp [get_current_tracking, h]

/-- Witness for `tracking_success_output` at empty and non-empty outputs. -/
theorem tracking_success_output_witness :
    get_current_tracking ⟨true, "", ""⟩ = "No active tracking."
    ∧ get_current_tracking ⟨true, "work", ""⟩ = "work" :=
  ⟨(tracking_success_output "" "").1 (by decide),
    (tracking_success_output "work" "").2 (by decide)⟩

/-- C9: a successful status query whose stdout is non-empty but consists
only of whitespace returns the sentinel `"No active tracking."` — the
emptiness check is applied to the trimmed output. -/
theorem tracking_whitespace_only_sentinel (stdout stderr : String)
    (_hne : stdout ≠ "") (hws : trimIsEmpty stdout = true) :
    get_current_tracking ⟨true, stdout, stderr⟩ = "No active tracking." := by
  simp [get_current_tracking, hws]

/-- Witness for `tracking_whitespace_only_sentinel` at `" \t"`. -/
theorem tracking_whitespace_only_sentinel_witness :
    get_current_tracking ⟨true, " \t", "e"⟩ = "No active tracking." :=
  tracking_whitespace_only_sentinel " \t" "e" (by decide) (by decide)

/-- C7: the list and stats queries return stdout verbatim on success, and on
a non-zero exit return the formatted error text embedding the stderr
content. -/
theorem list_stats_error_embeds_stderr (stdout stderr : String) :
    get_list_output ⟨true, stdout, stderr⟩ = stdout
    ∧ get_list_output ⟨false, stdout, stderr⟩ = "Error getting list: " ++ stderr
    ∧ get_stats_output ⟨true, stdout, stderr⟩ = stdout
    ∧ get_stats_output ⟨false, stdout, stderr⟩ = "Error getting stats: " ++ stderr :=
  ⟨rfl, rfl, rfl, rfl⟩

/-- Lines printed by the command part of `start_tracking` (`main.rs` lines
280-289): nothing on success; on non-zero exit one line embedding stderr. -/
def start_command_printed (out : ProcOutput) : List String :=
  if out.success then [] else ["Failed to start tracking: " ++ out.stderr]

/-- Lines printed by the command part of `finish_tracking` (`main.rs` lines
342-351): nothing on success; on non-zero exit one line embedding stderr. -/
def finish_command_printed (out : ProcOutput) : List String :=
  if out.success then [] else ["Failed to finish tracking: " ++ out.stderr]

/-- C10: on success the start and finish commands print nothing; they print
(exactly one line, embedding stderr) only on a non-zero exit; their stdout
is discarded entirely — the printed lines are independent of stdout, and
the application state produced by the `s`/`f` key handlers does not depend
on the start/finish command's output (only the subsequent status query
feeds the state). -/
theorem mutating_command_stdout_discarded (stdout stderr : String)
    (gw : Gateway) (app : App) (o : ProcOutput) :
    start_command_printed ⟨true, stdout, stderr⟩ = []
    ∧ finish_command_printed ⟨true, stdout, stderr⟩ = []
    ∧ start_command_printed ⟨false, stdout, stderr⟩
        = ["Failed to start tracking: " ++ stderr]
    ∧ finish_command_printed ⟨false, stdout, stderr⟩
        = ["Failed to finish tracking: " ++ stderr]
    ∧ (∀ out : ProcOutput, ∀ s2 : String,
        start_command_printed { out with stdout := s2 } = start_command_printed out)
    ∧ (∀ out : ProcOutput, ∀ s2 : String,
        finish_command_printed { out with stdout := s2 } = finish_command_printed out)
    ∧ (handleKey { gw with startCmd := o } app 's').1 = (handleKey gw app 's').1
    ∧ (handleKey { gw with finishCmd := o } app 'f').1 = (handleKey gw app 'f').1 := by
  refine ⟨rfl, rfl, rfl, rfl, ?_, ?_, ?_, ?_⟩
  · intro out s2; rcases out with ⟨su, so, se⟩; cases su <;> rfl
  · intro out s2; rcases out with ⟨su, so, se⟩; cases su <;> rfl
  · obtain ⟨s, ts, lo, so⟩ := app; cases s <;> rfl
  · obtain ⟨s, ts, lo, so⟩ := app; cases s <;> rfl

